import Mathlib

/-!
Verification of the weather-api service core against its specification.

The Python source is shallowly embedded: every service method becomes a
pure Lean function whose extra parameters stand for the outcomes of the
I/O calls it performs (object-store listing, object bodies, provider
response, log-append success), and datetimes are modelled as integer
second counts in UTC.  Floating-point quantities are modelled as
rationals (Python/JSON float round-trips are exact on the values the
service handles, so rational arithmetic is a faithful model of the
arithmetic actually performed).
-/

namespace WeatherApi

/-- A single-quote character, used when embedding Python error-message
formatting such as the message built by `weather_service.py` line 76. -/
def sq : String := String.mk [Char.ofNat 39]

/-- Embeds `app/models.py` `WeatherData` (lines 8-41): one weather snapshot.
`timestamp`, `sunrise`, `sunset` are UTC datetimes modelled as second
counts; float fields are modelled as rationals. -/
structure WeatherData where
  city : String
  country : String
  temperature : ℚ
  feels_like : ℚ
  humidity : ℤ
  pressure : ℤ
  description : String
  wind_speed : ℚ
  wind_direction : ℤ
  visibility : ℤ
  clouds : ℤ
  timestamp : ℕ
  sunrise : Option ℕ := none
  sunset : Option ℕ := none
  deriving Repr, DecidableEq

/-- Embeds `app/models.py` `WeatherResponse` (lines 44-51). -/
structure WeatherResponse where
  success : Bool
  data : Option WeatherData := none
  message : String
  cached : Bool := false
  cache_age_minutes : Option ℚ := none
  deriving Repr, DecidableEq

/-- Embeds `app/models.py` `WeatherEvent` (lines 54-71). -/
structure WeatherEvent where
  event_id : String
  city : String
  timestamp : ℕ
  s3_path : String
  response_time_ms : ℚ
  cached : Bool
  error : Option String := none
  deriving Repr, DecidableEq

/-- Embeds `app/models.py` `ErrorResponse` (lines 74-80); `details` is modelled
as the string-to-string dictionary the code actually builds. -/
structure ErrorResponse where
  success : Bool := false
  message : String
  error_code : Option String := none
  details : Option (List (String × String)) := none
  deriving Repr, DecidableEq

/-- Python truthiness of an `Optional[str]`: `None` and `""` are falsy.
Used by `get_stats` (`main.py` line 257, `if event.error`). -/
def pyTruthy : Option String → Bool
  | none => false
  | some s => s ≠ ""

/-- Embeds `main.py` `get_stats` statistics block (lines 243-272), as a pure
function of the recovered event list and recent-file list. -/
structure Stats where
  total_requests_24h : ℕ
  cached_requests : ℕ
  cache_hit_rate : ℚ
  error_requests : ℕ
  error_rate : ℚ
  avg_response_time_ms : ℚ
  files_stored_24h : ℕ
  deriving Repr, DecidableEq

/-- Python `round` uses round-half-to-even on the integer boundary. -/
def roundHalfEven (q : ℚ) : ℤ :=
  if q - ⌊q⌋ < 1/2 then ⌊q⌋
  else if 1/2 < q - ⌊q⌋ then ⌊q⌋ + 1
  else if ⌊q⌋ % 2 = 0 then ⌊q⌋ else ⌊q⌋ + 1

/-- Python `round(x, 2)` (`main.py` line 270). -/
def pyRound2 (q : ℚ) : ℚ := (roundHalfEven (q * 100) : ℚ) / 100

/-- Embeds `main.py` `get_stats` lines 255-272: the statistics computed from the
events returned by `get_recent_events` and the file list returned by
`list_recent_files`. -/
def computeStats (events : List WeatherEvent) (recentFiles : List String) : Stats :=
  let total := events.length
  let cachedN := (events.filter (fun e => e.cached)).length
  let errN := (events.filter (fun e => pyTruthy e.error)).length
  let avg : ℚ :=
    if total > 0 then (events.map (fun e => e.response_time_ms)).sum / total else 0
  { total_requests_24h := total
    cached_requests := cachedN
    cache_hit_rate := if total > 0 then (cachedN : ℚ) / total else 0
    error_requests := errN
    error_rate := if total > 0 then (errN : ℚ) / total else 0
    avg_response_time_ms := pyRound2 avg
    files_stored_24h := recentFiles.length }

/-! ## Provider client (`app/services/weather_service.py`) -/

/-- Python exception values that `WeatherService.get_weather_data` can
raise or propagate to `main.get_weather`. -/
inductive PyExn where
  | valueError (m : String)
  | httpStatusError (status : ℕ) (m : String)
  | requestError (m : String)
  | keyError (k : String)
  | otherExn (m : String)
  deriving Repr, DecidableEq

/-- Python `str(e)` for the exceptions above (a `KeyError` string shows
the quoted missing key). -/
def PyExn.msg : PyExn → String
  | .valueError m => m
  | .httpStatusError _ m => m
  | .requestError m => m
  | .keyError k => sq ++ k ++ sq
  | .otherExn m => m

/-- The JSON payload of a successful provider HTTP response, with each
field the code reads held as `Option` (absent key ↝ `none`).
`weather0_description` stands for `data["weather"][0]["description"]`. -/
structure ProviderPayload where
  name : Option String := none
  sys_country : Option String := none
  main_temp : Option ℚ := none
  main_feels_like : Option ℚ := none
  main_humidity : Option ℤ := none
  main_pressure : Option ℤ := none
  weather0_description : Option String := none
  wind_speed : Option ℚ := none
  wind_deg : Option ℤ := none
  visibility : Option ℤ := none
  clouds_all : Option ℤ := none
  sys_sunrise : Option ℕ := none
  sys_sunset : Option ℕ := none
  deriving Repr, DecidableEq

/-- Outcome of the single upstream HTTP call made by `get_weather_data`
(`weather_service.py` line 47 and `raise_for_status` on line 48). -/
inductive ProviderOutcome where
  | payload (p : ProviderPayload)
  | httpStatus (code : ℕ) (m : String)
  | networkError (m : String)
  deriving Repr, DecidableEq

/-- Reading a required key from the payload dictionary: a missing key
raises `KeyError`, exactly as Python subscripting does. -/
def reqField {α : Type} (o : Option α) (k : String) : Except PyExn α :=
  match o with
  | some v => Except.ok v
  | none => Except.error (.keyError k)

/-- Embeds `weather_service.py` lines 53-68: building the `WeatherData` from the
provider payload.  `wind`, `visibility` and `clouds` use `.get` with
default 0; `timestamp` is set to `datetime.utcnow()`; `sunrise`/`sunset`
are included only when present. -/
def parsePayload (p : ProviderPayload) (now : ℕ) : Except PyExn WeatherData := do
  let nm ← reqField p.name "name"
  let co ← reqField p.sys_country "country"
  let t ← reqField p.main_temp "temp"
  let fl ← reqField p.main_feels_like "feels_like"
  let hu ← reqField p.main_humidity "humidity"
  let pr ← reqField p.main_pressure "pressure"
  let de ← reqField p.weather0_description "description"
  Except.ok
    { city := nm, country := co, temperature := t, feels_like := fl
      humidity := hu, pressure := pr, description := de
      wind_speed := p.wind_speed.getD 0, wind_direction := p.wind_deg.getD 0
      visibility := p.visibility.getD 0, clouds := p.clouds_all.getD 0
      timestamp := now, sunrise := p.sys_sunrise, sunset := p.sys_sunset }

/-- Embeds `WeatherService.get_weather_data` (`weather_service.py` lines 23-91):
a 404 from the provider becomes `ValueError("City '<city>' not found")`;
other HTTP statuses propagate as `httpx.HTTPStatusError`; transport
failures propagate as `httpx.RequestError`; a `KeyError` while parsing
becomes `ValueError("Invalid weather data format received")`. -/
def getWeatherData (city : String) (now : ℕ) (o : ProviderOutcome) :
    Except PyExn WeatherData :=
  match o with
  | .networkError m => Except.error (.requestError m)
  | .httpStatus code m =>
      if code = 404 then
        Except.error (.valueError ("City " ++ sq ++ city ++ sq ++ " not found"))
      else
        Except.error (.httpStatusError code m)
  | .payload p =>
      match parsePayload p now with
      | Except.ok w => Except.ok w
      | Except.error (.keyError _) =>
          Except.error (.valueError "Invalid weather data format received")
      | Except.error e => Except.error e

/-! ## Orchestrator (`app/main.py` `get_weather`, lines 87-239) -/

/-- A `404/503/500` failure raised as `HTTPException(status_code, detail)`. -/
structure HTTPErr where
  status : ℕ
  detail : String
  deriving Repr, DecidableEq

/-- The argument tuple of one `db_svc.log_weather_event(...)` call. -/
structure LogCall where
  city : String
  s3_path : String
  response_time_ms : ℚ
  cached : Bool
  error : Option String := none
  deriving Repr, DecidableEq

/-- Embeds `DatabaseService.log_weather_event` (`database_service.py` lines
109-162) as seen by its caller: either the fresh event id or a raised
exception, depending on whether the put-item I/O fails. -/
def logWeatherEvent (fails : Bool) (eventId : String) (_c : LogCall) :
    Except String String :=
  if fails then Except.error "log append failed" else Except.ok eventId

/-- A `try: await db_svc.log_weather_event(...) except Exception: warn`
block in `main.get_weather`: the outcome is discarded either way. -/
def tryLog (fails : Bool) (c : LogCall) : Unit :=
  match logWeatherEvent fails "event-id" c with
  | Except.ok _ => ()
  | Except.error _ => ()

/-- All the I/O outcomes one `/weather` request can observe, passed to
the pure embedding of `get_weather`.  `internalExn` is an unanticipated
exception raised inside the handler body (caught by `main.py` line 223);
`cacheResult` is the value returned by `get_cached_weather_data`;
`storeResult` is the `store_weather_data` outcome (the s3 path, or the
raised exception's message); `logFails` states whether event-log appends
raise. -/
structure ReqEnv where
  city : String
  now : ℕ
  responseTime : ℚ
  internalExn : Option String := none
  cacheResult : Option WeatherData := none
  providerOutcome : ProviderOutcome
  storeResult : Except String String := Except.ok "s3://bucket/key"
  logFails : Bool := false

/-- Embeds `main.get_weather` (`main.py` lines 87-239): the terminal outcome
(HTTP error or success body) together with the list of
`log_weather_event` calls attempted on the way. -/
def getWeather (e : ReqEnv) : Except HTTPErr WeatherResponse × List LogCall :=
  match e.internalExn with
  | some m =>
      let call : LogCall :=
        { city := e.city, s3_path := "", response_time_ms := e.responseTime
          cached := false, error := some m }
      let _ := tryLog e.logFails call
      (Except.error { status := 500, detail := "Internal server error" }, [call])
  | none =>
  match e.cacheResult with
  | some cachedData =>
      let ageMinutes : ℚ := ((e.now : ℤ) - (cachedData.timestamp : ℤ)) / 60
      let call : LogCall :=
        { city := e.city, s3_path := "cached", response_time_ms := e.responseTime
          cached := true }
      let _ := tryLog e.logFails call
      (Except.ok
        { success := true, data := some cachedData
          message := "Weather data for " ++ e.city ++ " (cached)"
          cached := true, cache_age_minutes := some ageMinutes }, [call])
  | none =>
  match getWeatherData e.city e.now e.providerOutcome with
  | Except.error (.valueError m) =>
      let call : LogCall :=
        { city := e.city, s3_path := "", response_time_ms := e.responseTime
          cached := false, error := some m }
      let _ := tryLog e.logFails call
      (Except.error { status := 404, detail := m }, [call])
  | Except.error ex =>
      let call : LogCall :=
        { city := e.city, s3_path := "", response_time_ms := e.responseTime
          cached := false, error := some ex.msg }
      let _ := tryLog e.logFails call
      (Except.error
        { status := 503, detail := "Weather service temporarily unavailable" }, [call])
  | Except.ok w =>
      let s3path : String :=
        match e.storeResult with
        | Except.ok p => p
        | Except.error _ => "storage_failed"
      let call : LogCall :=
        { city := e.city, s3_path := s3path, response_time_ms := e.responseTime
          cached := false }
      let _ := tryLog e.logFails call
      (Except.ok
        { success := true, data := some w
          message := "Current weather data for " ++ e.city
          cached := false }, [call])

/-! ## Reading store (`app/services/storage_service.py`) -/

/-- Python `str.lower` on one character (ASCII range, which covers the
characters the key layout manipulates). -/
def pyLowerChar (ch : Char) : Char :=
  if 65 ≤ ch.toNat ∧ ch.toNat ≤ 90 then Char.ofNat (ch.toNat + 32) else ch

/-- Embeds `city.lower().replace(' ', '_')` (`storage_service.py` lines
58, 122), character by character: lowering never produces a space and
preserves spaces, so lower-then-replace is a per-character map. -/
def normalizeCity (c : String) : String :=
  String.mk (c.data.map (fun ch => if ch = ' ' then '_' else pyLowerChar ch))

/-- The listing key head `f"weather_data/{normalized}_"`
(`storage_service.py` line 122). -/
def cityKeyHead (city : String) : String :=
  "weather_data/" ++ normalizeCity city ++ "_"

/-- The decimal digit character for `d < 10`. -/
def digitChar (d : ℕ) : Char := Char.ofNat (48 + d)

/-- Bool test for a decimal digit character. -/
def isDigitChar (c : Char) : Bool := 48 ≤ c.toNat && c.toNat < 58

/-- Embeds `datetime.isoformat` modelled on integer datetimes: the decimal
rendering of the second count.  What matters for the claims is that it
is a rendering with an exact parser, which is what the ISO-8601
format/parse pair used by the code provides. -/
def isoformat (t : ℕ) : String :=
  String.mk (((Nat.digits 10 t).reverse).map digitChar)

/-- The datetime parser applied by pydantic when validating a string
into a `datetime` field: exact inverse of `isoformat`, `none` on a
malformed string. -/
def parseIso (s : String) : Option ℕ :=
  if s.data.all isDigitChar then
    some (Nat.ofDigits 10 ((s.data.map (fun c => c.toNat - 48)).reverse))
  else none

/-- A JSON value as stored in a weather-data object body. -/
inductive JVal where
  | s (v : String)
  | q (v : ℚ)
  | z (v : ℤ)
  | nul
  deriving Repr, DecidableEq

/-- The JSON value of an optional datetime field: ISO string or null. -/
def joptTime : Option ℕ → JVal
  | some t => .s (isoformat t)
  | none => .nul

/-- Embeds `storage_service.py` lines 76-84: `model_dump(mode='json')` followed
by `json.dumps` — the object body written by `store_weather_data`, as the
association list of the JSON document's fields. -/
def serializeWD (w : WeatherData) : List (String × JVal) :=
  [("city", .s w.city), ("country", .s w.country),
   ("temperature", .q w.temperature), ("feels_like", .q w.feels_like),
   ("humidity", .z w.humidity), ("pressure", .z w.pressure),
   ("description", .s w.description), ("wind_speed", .q w.wind_speed),
   ("wind_direction", .z w.wind_direction), ("visibility", .z w.visibility),
   ("clouds", .z w.clouds), ("timestamp", .s (isoformat w.timestamp)),
   ("sunrise", joptTime w.sunrise), ("sunset", joptTime w.sunset)]

/-- Key lookup in a JSON object (Python dict access by key). -/
def jget : List (String × JVal) → String → Option JVal
  | [], _ => none
  | (k, v) :: rest, key => if k == key then some v else jget rest key

/-- pydantic validation of a `str` field. -/
def jgetStr (d : List (String × JVal)) (k : String) : Option String :=
  match jget d k with
  | some (.s v) => some v
  | _ => none

/-- pydantic validation of a `float` field (accepts a JSON int too). -/
def jgetFloat (d : List (String × JVal)) (k : String) : Option ℚ :=
  match jget d k with
  | some (.q v) => some v
  | some (.z v) => some (v : ℚ)
  | _ => none

/-- pydantic validation of an `int` field (accepts an integral float). -/
def jgetInt (d : List (String × JVal)) (k : String) : Option ℤ :=
  match jget d k with
  | some (.z v) => some v
  | some (.q v) => if v.den = 1 then some v.num else none
  | _ => none

/-- pydantic validation of a `datetime` field from an ISO string. -/
def jgetTime (d : List (String × JVal)) (k : String) : Option ℕ :=
  match jget d k with
  | some (.s v) => parseIso v
  | _ => none

/-- pydantic validation of an `Optional[datetime]` field (default
`None` when absent or null). -/
def jgetOptTime (d : List (String × JVal)) (k : String) : Option (Option ℕ) :=
  match jget d k with
  | some (.s v) => (parseIso v).map some
  | some .nul => some none
  | none => some none
  | _ => none

/-- Embeds `storage_service.py` lines 152-154 — `json.loads` then
`WeatherData(**weather_data_dict)`: pydantic validation of the stored
JSON document back into a `WeatherData`. -/
def deserializeWD (d : List (String × JVal)) : Option WeatherData := do
  let city ← jgetStr d "city"
  let country ← jgetStr d "country"
  let temperature ← jgetFloat d "temperature"
  let feels_like ← jgetFloat d "feels_like"
  let humidity ← jgetInt d "humidity"
  let pressure ← jgetInt d "pressure"
  let description ← jgetStr d "description"
  let wind_speed ← jgetFloat d "wind_speed"
  let wind_direction ← jgetInt d "wind_direction"
  let visibility ← jgetInt d "visibility"
  let clouds ← jgetInt d "clouds"
  let timestamp ← jgetTime d "timestamp"
  let sunrise ← jgetOptTime d "sunrise"
  let sunset ← jgetOptTime d "sunset"
  some { city := city, country := country, temperature := temperature
         feels_like := feels_like, humidity := humidity, pressure := pressure
         description := description, wind_speed := wind_speed
         wind_direction := wind_direction, visibility := visibility
         clouds := clouds, timestamp := timestamp
         sunrise := sunrise, sunset := sunset }

/-- One object of a `list_objects_v2` listing: key plus the
store-reported last-modified time (UTC seconds). -/
structure S3Object where
  key : String
  lastModified : ℕ
  deriving Repr, DecidableEq

/-- Whether the key string `k` starts with the string `pre`. -/
def keyHasHead (pre k : String) : Bool := pre.data.isPrefixOf k.data

/-- Embeds `list_objects_v2(Bucket, Prefix=pre)`: the S3 service returns, in
listing order, the bucket objects whose key starts with `pre`. -/
def listObjectsV2 (bucket : List S3Object) (pre : String) : List S3Object :=
  bucket.filter (fun o => keyHasHead pre o.key)

/-- Python `max(best :: rest, key=f)`: iterates left to right, replacing
the current best only on a strictly larger key, so the first maximal
element wins ties. -/
def pyMaxBy {α : Type} (f : α → ℤ) : α → List α → α
  | best, [] => best
  | best, x :: xs => pyMaxBy f (if f best < f x then x else best) xs

/-- The observable state of the object store during one
`get_cached_weather_data` call: whether the listing call raises, the
bucket contents in listing order, whether each per-key `get_object`
raises, and each key's body as parsed JSON (`none` for an undecodable
body). -/
structure S3View where
  listFails : Bool := false
  bucket : List S3Object := []
  getFails : String → Bool := fun _ => false
  body : String → Option (List (String × JVal)) := fun _ => none

/-- Embeds `StorageService.get_cached_weather_data` (`storage_service.py` lines
107-161): prefix listing, freshness filter against
`utcnow - cache_expiry_minutes`, `max` by last-modified, body fetch and
deserialization; every failure is caught and turned into `None`. -/
def getCachedWeatherData (city : String) (now : ℕ) (expiryMinutes : ℕ)
    (view : S3View) : Option WeatherData :=
  let cutoff : ℤ := (now : ℤ) - expiryMinutes * 60
  if view.listFails then none
  else
    let contents := listObjectsV2 view.bucket (cityKeyHead city)
    if contents.isEmpty then none
    else
      match contents.filter (fun o => cutoff < (o.lastModified : ℤ)) with
      | [] => none
      | v :: vs =>
          let latest := pyMaxBy (fun o => (o.lastModified : ℤ)) v vs
          if view.getFails latest.key then none
          else
            match view.body latest.key with
            | none => none
            | some d => deserializeWD d

/-! ## Event log retrieval (`app/services/database_service.py`) -/

/-- Embeds `DatabaseService.get_recent_events` (`database_service.py` lines
208-250): a table scan with `Limit=limit` yields the first `limit`
items in the backing store's enumeration order; they are deserialized
and then sorted by timestamp, most recent first (Python's stable sort
with `reverse=True`); any retrieval failure yields `[]`. -/
def getRecentEvents (limit : ℕ) (scanFails : Bool)
    (table : List WeatherEvent) : List WeatherEvent :=
  if scanFails then []
  else
    let events := table.take limit
    events.mergeSort (fun a b => decide (b.timestamp ≤ a.timestamp))

/-- Embeds `main.global_exception_handler` (`main.py` lines 279-289): the JSON
body of the 500 response built for an unhandled exception whose
`str(exc)` is `excStr`. -/
def globalExceptionHandler (excStr : String) : ℕ × ErrorResponse :=
  (500,
    { message := "Internal server error"
      details := some [("error", excStr)] })

/-! ## Helper lemmas -/

lemma digitChar_toNat {d : ℕ} (h : d < 10) : (digitChar d).toNat = 48 + d := by
  interval_cases d <;> decide

lemma isDigitChar_digitChar {d : ℕ} (h : d < 10) :
    isDigitChar (digitChar d) = true := by
  interval_cases d <;> decide

/-- The stored timestamp rendering parses back to the original value. -/
lemma parseIso_isoformat (t : ℕ) : parseIso (isoformat t) = some t := by
  have hlt : ∀ d ∈ Nat.digits 10 t, d < 10 := fun d hd =>
    Nat.digits_lt_base (by norm_num) hd
  unfold parseIso isoformat
  have hdata : (String.mk (((Nat.digits 10 t).reverse).map digitChar)).data
      = ((Nat.digits 10 t).reverse).map digitChar := rfl
  rw [hdata]
  have hall : (((Nat.digits 10 t).reverse).map digitChar).all isDigitChar = true := by
    rw [List.all_eq_true]
    intro c hc
    rw [List.mem_map] at hc
    obtain ⟨d, hd, rfl⟩ := hc
    exact isDigitChar_digitChar (hlt d (List.mem_reverse.mp hd))
  rw [hall]
  simp only [if_true]
  rw [List.map_map]
  have hmap : (((Nat.digits 10 t).reverse).map ((fun c => c.toNat - 48) ∘ digitChar))
      = (Nat.digits 10 t).reverse := by
    have := List.map_congr_left (l := (Nat.digits 10 t).reverse)
      (f := (fun c => c.toNat - 48) ∘ digitChar) (g := id) ?_
    · simpa using this
    · intro d hd
      have hdlt : d < 10 := hlt d (List.mem_reverse.mp hd)
      simp [Function.comp, digitChar_toNat hdlt]
  rw [hmap, List.reverse_reverse, Nat.ofDigits_digits]

/-! ## Claim theorems -/

/-- Shared round-trip lemma: deserializing a serialized reading restores
every field. -/
lemma deserializeWD_serializeWD (w : WeatherData) :
    deserializeWD (serializeWD w) = some w := by
  cases w with
  | mk city country temperature feels_like humidity pressure description
      wind_speed wind_direction visibility clouds timestamp sunrise sunset =>
    cases sunrise <;> cases sunset <;>
      simp [deserializeWD, serializeWD, jgetStr, jgetFloat, jgetInt,
        jgetTime, jgetOptTime, jget, joptTime, parseIso_isoformat]

/-- C8: a Reading written via `put` (JSON serialization of the body,
`storage_service.py` lines 76-84) and read back through the cache-lookup
deserialization (lines 152-154) yields field-identical values for every
field, the timestamps included once their rendering is parsed back. -/
theorem put_get_roundtrip (w : WeatherData) :
    deserializeWD (serializeWD w) = some w :=
  deserializeWD_serializeWD w

/-- C9: `computeStats` on an empty event window returns zero counts,
zero rates and zero mean latency, with no division-by-zero failure
(`main.py` lines 255-272 guard every ratio by `total > 0`). -/
theorem computeStats_zero_events (files : List String) :
    computeStats [] files =
      { total_requests_24h := 0, cached_requests := 0, cache_hit_rate := 0
        error_requests := 0, error_rate := 0, avg_response_time_ms := 0
        files_stored_24h := files.length } := by
  simp [computeStats, pyRound2, roundHalfEven]

/-! ## Sample inputs shared by witnesses and counterexamples -/

/-- A concrete stored reading used by witnesses. -/
def wLondon : WeatherData :=
  { city := "London", country := "GB", temperature := 18, feels_like := 17
    humidity := 60, pressure := 1012, description := "light rain"
    wind_speed := 4, wind_direction := 90, visibility := 9000, clouds := 75
    timestamp := 60 }

/-- A concrete fresh reading used by witnesses. -/
def wBerlinPayload : ProviderPayload :=
  { name := some "Berlin", sys_country := some "DE", main_temp := some 21
    main_feels_like := some 20, main_humidity := some 40
    main_pressure := some 1013, weather0_description := some "clear sky"
    wind_speed := some 3, wind_deg := some 250, visibility := some 10000
    clouds_all := some 0 }

/-- A request whose provider response payload is missing every field the
parser requires (the first subscript, `data["name"]`, raises `KeyError`). -/
def envMalformed : ReqEnv :=
  { city := "Berlin", now := 100, responseTime := 3
    providerOutcome := .payload {} }

/-- A request whose provider fetch hits an upstream 404. -/
def envNotFound : ReqEnv :=
  { city := "Atlantis", now := 100, responseTime := 3
    providerOutcome := .httpStatus 404 "Not Found" }

/-- A request whose provider fetch hits a transport failure. -/
def envNetFail : ReqEnv :=
  { city := "Berlin", now := 100, responseTime := 3
    providerOutcome := .networkError "timeout" }

/-- A request that finds a fresh cached reading. -/
def envCacheHit : ReqEnv :=
  { city := "London", now := 180, responseTime := 2
    cacheResult := some wLondon
    providerOutcome := .networkError "unused" }

/-- A request whose fetch succeeds but whose storage put raises. -/
def envStoreFail : ReqEnv :=
  { city := "Berlin", now := 100, responseTime := 3
    providerOutcome := .payload wBerlinPayload
    storeResult := Except.error "S3 write failed" }

/-! ## Orchestrator claim theorems -/

/-- C2: the terminal outcome and the attempted event-log calls of
`get_weather` are identical whether the `log_weather_event` append
succeeds or raises — every append sits in its own
`try/except` block (`main.py` lines 128-136, 158-167, 176-185, 200-208,
228-237) whose failure arm only emits a local warning. -/
theorem log_failure_never_changes_outcome (e : ReqEnv) (b₁ b₂ : Bool) :
    getWeather { e with logFails := b₁ } = getWeather { e with logFails := b₂ } := by
  cases e
  simp only [getWeather]

/-- C4: on a cache hit, `get_weather` computes the cache age from the
stored reading's own capture timestamp (`main.py` line 122), logs the
event with `cached=true` and location literal `"cached"` (lines
129-134), and returns the stored reading with `success=true`,
`cached=true` and the age in minutes (lines 140-146). -/
theorem cache_hit_response (e : ReqEnv) (c : WeatherData)
    (h0 : e.internalExn = none) (hc : e.cacheResult = some c) :
    getWeather e =
      (Except.ok
        { success := true, data := some c
          message := "Weather data for " ++ e.city ++ " (cached)"
          cached := true
          cache_age_minutes := some ((((e.now : ℤ) - (c.timestamp : ℤ) : ℤ) : ℚ) / 60) },
       [{ city := e.city, s3_path := "cached", response_time_ms := e.responseTime
          cached := true }]) := by
  simp [getWeather, h0, hc]

/-- Witness for C4 at a concrete cache hit: now = 180 s, capture
timestamp 60 s, so the displayed age is 2 minutes. -/
theorem cache_hit_response_witness :
    getWeather envCacheHit =
      (Except.ok
        { success := true, data := some wLondon
          message := "Weather data for London (cached)"
          cached := true, cache_age_minutes := some 2 },
       [{ city := "London", s3_path := "cached", response_time_ms := 2
          cached := true }]) := by
  have h := cache_hit_response envCacheHit wLondon rfl rfl
  rw [h]
  norm_num [envCacheHit]
  exact ⟨rfl, by norm_num [wLondon]⟩

/-- C3: when the fetch succeeds and `store_weather_data` raises,
`get_weather` substitutes the sentinel `"storage_failed"` (`main.py`
lines 191-195), logs the event with the sentinel and `cached=false`
(lines 200-206), and still returns a 200 success carrying the fresh
reading (lines 212-217). -/
theorem storage_failure_still_success (e : ReqEnv) (w : WeatherData) (m : String)
    (h0 : e.internalExn = none) (hc : e.cacheResult = none)
    (hf : getWeatherData e.city e.now e.providerOutcome = Except.ok w)
    (hs : e.storeResult = Except.error m) :
    getWeather e =
      (Except.ok
        { success := true, data := some w
          message := "Current weather data for " ++ e.city, cached := false },
       [{ city := e.city, s3_path := "storage_failed"
          response_time_ms := e.responseTime, cached := false }]) := by
  simp [getWeather, h0, hc, hf, hs]

/-- Witness for C3 at a concrete successful fetch with a failing put. -/
theorem storage_failure_still_success_witness :
    getWeather envStoreFail =
      (Except.ok
        { success := true
          data := some
            { city := "Berlin", country := "DE", temperature := 21
              feels_like := 20, humidity := 40, pressure := 1013
              description := "clear sky", wind_speed := 3
              wind_direction := 250, visibility := 10000, clouds := 0
              timestamp := 100 }
          message := "Current weather data for Berlin", cached := false },
       [{ city := "Berlin", s3_path := "storage_failed"
          response_time_ms := 3, cached := false }]) := by
  exact storage_failure_still_success envStoreFail _ "S3 write failed" rfl rfl rfl rfl

/-- C1 (amended): on a cache miss, a fetch failure raised as
`ValueError` — which covers both the provider 404 and a malformed
payload (`weather_service.py` lines 76 and 87) — is logged with an empty
location and the message and surfaces as a 404 carrying that message
(`main.py` lines 153-169); every other fetch failure is logged the same
way and surfaces as a 503 whose detail is the fixed generic string
(lines 171-188). -/
theorem fetch_failure_responses (e : ReqEnv)
    (h0 : e.internalExn = none) (hc : e.cacheResult = none) :
    (∀ m, getWeatherData e.city e.now e.providerOutcome =
        Except.error (.valueError m) →
      getWeather e =
        (Except.error { status := 404, detail := m },
         [{ city := e.city, s3_path := "", response_time_ms := e.responseTime
            cached := false, error := some m }])) ∧
    (∀ ex, getWeatherData e.city e.now e.providerOutcome = Except.error ex →
      (∀ m, ex ≠ PyExn.valueError m) →
      getWeather e =
        (Except.error
          { status := 503, detail := "Weather service temporarily unavailable" },
         [{ city := e.city, s3_path := "", response_time_ms := e.responseTime
            cached := false, error := some ex.msg }])) := by
  constructor
  · intro m hm
    simp [getWeather, h0, hc, hm]
  · intro ex hex hne
    cases ex with
    | valueError m => exact absurd rfl (hne m)
    | httpStatusError s m => simp [getWeather, h0, hc, hex, PyExn.msg]
    | requestError m => simp [getWeather, h0, hc, hex, PyExn.msg]
    | keyError k => simp [getWeather, h0, hc, hex, PyExn.msg]
    | otherExn m => simp [getWeather, h0, hc, hex, PyExn.msg]

/-- Witness for C1: a provider 404 for "Atlantis" surfaces as an HTTP
404 carrying the original message, and a transport failure surfaces as
the generic 503, each with the corresponding log call. -/
theorem fetch_failure_responses_witness :
    getWeather envNotFound =
      (Except.error
        { status := 404, detail := "City " ++ sq ++ "Atlantis" ++ sq ++ " not found" },
       [{ city := "Atlantis", s3_path := "", response_time_ms := 3
          cached := false
          error := some ("City " ++ sq ++ "Atlantis" ++ sq ++ " not found") }]) ∧
    getWeather envNetFail =
      (Except.error
        { status := 503, detail := "Weather service temporarily unavailable" },
       [{ city := "Berlin", s3_path := "", response_time_ms := 3
          cached := false, error := some "timeout" }]) := by
  constructor
  · exact (fetch_failure_responses envNotFound rfl rfl).1 _ rfl
  · exact (fetch_failure_responses envNetFail rfl rfl).2 (.requestError "timeout")
      rfl (fun m h => PyExn.noConfusion h)

/-- Counterexample to C1 as stated: a malformed provider payload (all
required fields absent) surfaces as a 404 not-found carrying the
malformed-response message, not as a service-unavailable failure. -/
theorem malformed_fetch_yields_404 :
    (getWeather envMalformed).1 =
      Except.error { status := 404, detail := "Invalid weather data format received" } ∧
    (getWeather envMalformed).1 ≠
      Except.error
        { status := 503, detail := "Weather service temporarily unavailable" } := by
  refine ⟨rfl, fun h => ?_⟩
  have h1 : (getWeather envMalformed).1 =
      Except.error { status := 404, detail := "Invalid weather data format received" } := rfl
  rw [h1] at h
  injection h with h2
  exact absurd (congrArg HTTPErr.status h2) (by decide)

/-- C7 at the failing input: the global exception handler (`main.py`
lines 279-289) builds its 500 response with `details={"error": str(exc)}`,
so the raw exception text is part of the user-visible body. -/
theorem global_handler_exposes_exception_text :
    globalExceptionHandler "division by zero" =
      (500,
        { success := false, message := "Internal server error"
          error_code := none
          details := some [("error", "division by zero")] }) := rfl

/-! ## Freshness selection and event retrieval -/

lemma pyMaxBy_spec {α : Type} (f : α → ℤ) (x : α) (l : List α) :
    (pyMaxBy f x l = x ∨ pyMaxBy f x l ∈ l) ∧
    f x ≤ f (pyMaxBy f x l) ∧
    ∀ y ∈ l, f y ≤ f (pyMaxBy f x l) := by
  induction l generalizing x with
  | nil => exact ⟨Or.inl rfl, le_refl _, by simp⟩
  | cons a t ih =>
    have step : pyMaxBy f x (a :: t) = pyMaxBy f (if f x < f a then a else x) t := rfl
    by_cases h : f x < f a
    · rw [step, if_pos h]
      obtain ⟨hm, hx, hall⟩ := ih a
      refine ⟨?_, le_trans (le_of_lt h) hx, ?_⟩
      · rcases hm with h1 | h1
        · exact Or.inr (by simp [h1])
        · exact Or.inr (List.mem_cons_of_mem _ h1)
      · intro y hy
        rcases List.mem_cons.mp hy with rfl | hy'
        · exact hx
        · exact hall y hy'
    · rw [step, if_neg h]
      obtain ⟨hm, hx, hall⟩ := ih x
      refine ⟨?_, hx, ?_⟩
      · rcases hm with h1 | h1
        · exact Or.inl h1
        · exact Or.inr (List.mem_cons_of_mem _ h1)
      · intro y hy
        rcases List.mem_cons.mp hy with rfl | hy'
        · exact le_trans (le_of_not_lt h) hx
        · exact hall y hy'

lemma filter_cons_isEmpty_false {α : Type} {p : α → Bool} {l : List α}
    {v : α} {vs : List α} (h : l.filter p = v :: vs) : l.isEmpty = false := by
  cases l with
  | nil => simp at h
  | cons a t => rfl

/-- C5: with a working listing, `get_cached_weather_data` returns `none`
exactly when no stored entry matches the normalized city's key head
within the freshness window, and otherwise resolves to the body of an
entry that is in the window and carries the latest store-reported
last-modified time (`storage_service.py` lines 122-157); the tie-break
is the deterministic first-maximal choice of Python's `max`. -/
theorem getFresh_selects_latest (city : String) (now expiry : ℕ) (view : S3View)
    (hok : view.listFails = false) :
    ((listObjectsV2 view.bucket (cityKeyHead city)).filter
        (fun o => ((now : ℤ) - expiry * 60) < (o.lastModified : ℤ)) = [] →
      getCachedWeatherData city now expiry view = none) ∧
    (∀ v vs,
      (listObjectsV2 view.bucket (cityKeyHead city)).filter
          (fun o => ((now : ℤ) - expiry * 60) < (o.lastModified : ℤ)) = v :: vs →
      ∃ o, o ∈ v :: vs ∧
        (∀ x ∈ v :: vs, (x.lastModified : ℤ) ≤ (o.lastModified : ℤ)) ∧
        getCachedWeatherData city now expiry view =
          (if view.getFails o.key then none
           else
             match view.body o.key with
             | none => none
             | some d => deserializeWD d)) := by
  constructor
  · intro hnil
    by_cases hc : (listObjectsV2 view.bucket (cityKeyHead city)).isEmpty
    · simp [getCachedWeatherData, hok, hc]
    · simp [getCachedWeatherData, hok, hc, hnil]
  · intro v vs hcons
    refine ⟨pyMaxBy (fun o => (o.lastModified : ℤ)) v vs, ?_, ?_, ?_⟩
    · obtain ⟨hm, -, -⟩ := pyMaxBy_spec (fun o => (o.lastModified : ℤ)) v vs
      rcases hm with h1 | h1
      · simp [h1]
      · exact List.mem_cons_of_mem _ h1
    · obtain ⟨-, hx, hall⟩ := pyMaxBy_spec (fun o => (o.lastModified : ℤ)) v vs
      intro x hx'
      rcases List.mem_cons.mp hx' with rfl | hmem
      · exact hx
      · exact hall x hmem
    · have hne : (listObjectsV2 view.bucket (cityKeyHead city)).isEmpty = false :=
        filter_cons_isEmpty_false hcons
      simp [getCachedWeatherData, hok, hne, hcons]

/-- A concrete object-store view with two fresh-city candidates, used by
the witnesses. -/
def viewSample : S3View :=
  { bucket := [{ key := "weather_data/london_1", lastModified := 600 },
               { key := "weather_data/london_2", lastModified := 800 },
               { key := "weather_data/paris_1", lastModified := 900 }]
    body := fun k =>
      if k == "weather_data/london_2" then some (serializeWD wLondon) else none }

/-- Witness for C5: over `viewSample` with TTL 5 minutes at `now = 1000`
the cutoff is 700, the only fresh London entry is `london_2`, and the
lookup returns its stored reading. -/
theorem getFresh_selects_latest_witness :
    getCachedWeatherData "London" 1000 5 viewSample = some wLondon := by
  obtain ⟨o, h1, -, h3⟩ := (getFresh_selects_latest "London" 1000 5 viewSample rfl).2
    { key := "weather_data/london_2", lastModified := 800 } [] (by decide)
  have ho : o = { key := "weather_data/london_2", lastModified := 800 } := by
    simpa using h1
  rw [h3, ho]
  simp [viewSample, deserializeWD_serializeWD]

/-- C6 (amended): `get_recent_events` retrieves up to `limit` events in
the backing store's enumeration order (the scan `Limit` applies before
any ordering), sorts exactly those by timestamp descending, and returns
`[]` on a retrieval failure (`database_service.py` lines 218-250). -/
theorem recent_events_contract (limit : ℕ) (scanFails : Bool)
    (table : List WeatherEvent) :
    (scanFails = true → getRecentEvents limit scanFails table = []) ∧
    (scanFails = false →
      List.Perm (getRecentEvents limit scanFails table) (table.take limit)) ∧
    (getRecentEvents limit scanFails table).length ≤ limit ∧
    List.Pairwise (fun a b => b.timestamp ≤ a.timestamp)
      (getRecentEvents limit scanFails table) := by
  have htrans : ∀ a b c : WeatherEvent,
      (decide (b.timestamp ≤ a.timestamp)) → (decide (c.timestamp ≤ b.timestamp)) →
      (decide (c.timestamp ≤ a.timestamp)) := by
    intro a b c h1 h2
    simp only [decide_eq_true_eq] at *
    omega
  have htot : ∀ a b : WeatherEvent,
      (decide (b.timestamp ≤ a.timestamp)) || (decide (a.timestamp ≤ b.timestamp)) := by
    intro a b
    simpa using Nat.le_total b.timestamp a.timestamp
  refine ⟨?_, ?_, ?_, ?_⟩
  · intro h
    subst h
    rfl
  · intro h
    subst h
    exact List.mergeSort_perm (table.take limit)
      (fun a b => decide (b.timestamp ≤ a.timestamp))
  · cases scanFails
    · have he : getRecentEvents limit false table =
          (table.take limit).mergeSort (fun a b => decide (b.timestamp ≤ a.timestamp)) := rfl
      rw [he, List.length_mergeSort, List.length_take]
      exact Nat.min_le_left _ _
    · exact Nat.zero_le _
  · cases scanFails
    · have he : getRecentEvents limit false table =
          (table.take limit).mergeSort (fun a b => decide (b.timestamp ≤ a.timestamp)) := rfl
      rw [he]
      refine (List.sorted_mergeSort htrans htot (table.take limit)).imp ?_
      intro a b h
      simpa using h
    · exact List.Pairwise.nil

/-- An event written earlier in scan order with the older timestamp. -/
def evOld : WeatherEvent :=
  { event_id := "e1", city := "london", timestamp := 10, s3_path := "p1"
    response_time_ms := 5, cached := false }

/-- An event written later, with the newer timestamp. -/
def evNew : WeatherEvent :=
  { event_id := "e2", city := "paris", timestamp := 20, s3_path := "p2"
    response_time_ms := 6, cached := true }

/-- Witness for C6 at a concrete two-event table with `limit = 2`. -/
theorem recent_events_contract_witness :
    List.Perm (getRecentEvents 2 false [evOld, evNew]) ([evOld, evNew].take 2) ∧
    (getRecentEvents 2 false [evOld, evNew]).length ≤ 2 ∧
    List.Pairwise (fun a b : WeatherEvent => b.timestamp ≤ a.timestamp)
      (getRecentEvents 2 false [evOld, evNew]) := by
  obtain ⟨-, h2, h3, h4⟩ := recent_events_contract 2 false [evOld, evNew]
  exact ⟨h2 rfl, h3, h4⟩

/-- Counterexample to C6 as stated: with two stored events and
`limit = 1`, the scan's `Limit` keeps only the first event in
enumeration order, so the call returns the older event instead of the
most-recently-written one. -/
theorem recent_limit_misses_newest :
    getRecentEvents 1 false [evOld, evNew] = [evOld] ∧
    evOld.timestamp < evNew.timestamp ∧
    getRecentEvents 1 false [evOld, evNew] ≠ [evNew] := by
  have h : getRecentEvents 1 false [evOld, evNew] = [evOld] := by
    have he : getRecentEvents 1 false [evOld, evNew] =
        List.mergeSort [evOld] (fun a b => decide (b.timestamp ≤ a.timestamp)) := rfl
    rw [he]
    exact List.mergeSort_of_sorted (by simp)
  refine ⟨h, by decide, ?_⟩
  rw [h]
  intro hcontra
  have : evOld = evNew := by
    injection hcontra
  exact absurd (congrArg WeatherEvent.event_id this) (by decide)

/-- C10: every failure inside the cache lookup — listing failure, object
retrieval failure, or an undecodable/invalid stored body — makes
`get_cached_weather_data` return `None` (the catch-all at
`storage_service.py` lines 159-161), and a `None` cache result makes the
orchestrator behave exactly as on a cache miss. -/
theorem cache_read_failures_return_none (city : String) (now expiry : ℕ)
    (view : S3View) :
    (view.listFails = true → getCachedWeatherData city now expiry view = none) ∧
    (∀ v vs,
      (listObjectsV2 view.bucket (cityKeyHead city)).filter
          (fun o => ((now : ℤ) - expiry * 60) < (o.lastModified : ℤ)) = v :: vs →
      (view.getFails (pyMaxBy (fun o => (o.lastModified : ℤ)) v vs).key = true ∨
       view.body (pyMaxBy (fun o => (o.lastModified : ℤ)) v vs).key = none ∨
       (∃ d, view.body (pyMaxBy (fun o => (o.lastModified : ℤ)) v vs).key = some d ∧
          deserializeWD d = none)) →
      getCachedWeatherData city now expiry view = none) ∧
    (getCachedWeatherData city now expiry view = none →
      ∀ e : ReqEnv,
        getWeather { e with cacheResult := getCachedWeatherData city now expiry view } =
        getWeather { e with cacheResult := none }) := by
  refine ⟨?_, ?_, ?_⟩
  · intro h
    simp [getCachedWeatherData, h]
  · intro v vs hcons hfail
    by_cases hl : view.listFails
    · simp [getCachedWeatherData, hl]
    · have hne : (listObjectsV2 view.bucket (cityKeyHead city)).isEmpty = false :=
        filter_cons_isEmpty_false hcons
      rcases hfail with h | h | ⟨d, hd, hds⟩
      · simp [getCachedWeatherData, hl, hne, hcons, h]
      · simp [getCachedWeatherData, hl, hne, hcons, h]
      · simp [getCachedWeatherData, hl, hne, hcons, hd, hds]
  · intro h e
    rw [h]

/-- An object-store view whose listing call raises. -/
def viewListFail : S3View := { listFails := true }

/-- Witness for C10: a listing failure yields `None`, and the request
then behaves exactly as a cache miss. -/
theorem cache_read_failures_return_none_witness :
    getCachedWeatherData "Paris" 1000 5 viewListFail = none ∧
    getWeather
        { envNetFail with cacheResult := getCachedWeatherData "Paris" 1000 5 viewListFail } =
      getWeather { envNetFail with cacheResult := none } := by
  obtain ⟨h1, -, h3⟩ := cache_read_failures_return_none "Paris" 1000 5 viewListFail
  exact ⟨h1 rfl, h3 (h1 rfl) envNetFail⟩

end WeatherApi
